import Mathlib

/-!
# PyTilengine binding: shallow embedding and verification

This file embeds the Python binding `src/tilengine.py` of the Tilengine
retro graphics engine into Lean 4 and settles a list of claims about it.

The binding forwards every call to a native shared library that is not part
of the repository.  The Python-side logic (attribute updates, argument
marshalling, exception raising) is translated directly from the source.
Native behaviour (index validation, the last-error slot, the tilemap store,
the sprite z-order list, the frame scheduler) is modelled from the spec,
each such definition carrying a doc comment starting `Modelled from the
spec:`.

Conventions:
* Python `None` becomes `Option.none`; object handles become `Nat`.
* A Python method that may `raise TilengineException` returns the mutated
  state paired with an `Option TilengineException` (`none` = normal return).
  Attribute assignments that the source performs before the error check are
  performed before the error value is computed, mirroring Python's mutation
  order.
* ctypes marshalling of `c_ushort` / `c_ubyte` masks to 16 / 8 bits; the
  masks appear where the native cell is written.
* Python `int(x)` on a number truncates toward zero; fractional arguments
  are modelled as rationals and truncated by `pyInt`.
-/

/- Error codes, from the `Error` class of the source. -/
namespace Error

def OK : Nat := 0
def OUT_OF_MEMORY : Nat := 1
def IDX_LAYER : Nat := 2
def IDX_SPRITE : Nat := 3
def IDX_ANIMATION : Nat := 4
def IDX_PICTURE : Nat := 5
def REF_TILESET : Nat := 6
def REF_TILEMAP : Nat := 7
def REF_SPRITESET : Nat := 8
def REF_PALETTE : Nat := 9
def REF_SEQUENCE : Nat := 10
def REF_SEQPACK : Nat := 11
def REF_BITMAP : Nat := 12
def NULL_POINTER : Nat := 13
def FILE_NOT_FOUND : Nat := 14
def WRONG_FORMAT : Nat := 15
def WRONG_SIZE : Nat := 16
def UNSUPPORTED : Nat := 17
def REF_LIST : Nat := 18

end Error

/- Tile/sprite flag values, from the `Flags` class of the source. -/
namespace Flags

def FLIPX : Nat := 2 ^ 15
def FLIPY : Nat := 2 ^ 14
def ROTATE : Nat := 2 ^ 13
def PRIORITY : Nat := 2 ^ 12
def MASKED : Nat := 2 ^ 11
def TILESET : Nat := 7 * 2 ^ 8

end Flags

/-- `TilengineException`: the exception class of the binding; `value` is the
decoded error string passed to its constructor. -/
structure TilengineException where
  value : String
deriving Repr, DecidableEq

/-- `Tile` ctypes structure: a tilemap cell, two `c_ushort` fields. -/
structure Tile where
  index : Nat
  flags : Nat
deriving Repr, DecidableEq

/-- `Color`: a color value in RGB format (plain Python object, three ints). -/
structure Color where
  r : Nat
  g : Nat
  b : Nat
deriving Repr, DecidableEq

/-- Modelled from the spec: the strings returned by the native
`TLN_GetErrorString`, taken from the per-code comments of the source's
`Error` class (the native library itself is not in the repository). -/
def errorString (code : Nat) : String :=
  if code = Error.OK then "No error"
  else if code = Error.OUT_OF_MEMORY then "Not enough memory"
  else if code = Error.IDX_LAYER then "Layer index out of range"
  else if code = Error.IDX_SPRITE then "Sprite index out of range"
  else if code = Error.IDX_ANIMATION then "Animation index out of range"
  else if code = Error.IDX_PICTURE then "Picture or tile index out of range"
  else if code = Error.REF_TILESET then "Invalid Tileset reference"
  else if code = Error.REF_TILEMAP then "Invalid Tilemap reference"
  else if code = Error.REF_SPRITESET then "Invalid Spriteset reference"
  else if code = Error.REF_PALETTE then "Invalid Palette reference"
  else if code = Error.REF_SEQUENCE then "Invalid SequencePack reference"
  else if code = Error.REF_SEQPACK then "Invalid Sequence reference"
  else if code = Error.REF_BITMAP then "Invalid Bitmap reference"
  else if code = Error.NULL_POINTER then "Null pointer as argument"
  else if code = Error.FILE_NOT_FOUND then "Resource file not found"
  else if code = Error.WRONG_FORMAT then "Resource file has invalid format"
  else if code = Error.WRONG_SIZE then "A width or height parameter is invalid"
  else if code = Error.UNSUPPORTED then "Unsupported function"
  else if code = Error.REF_LIST then "Invalid ObjectList reference"
  else "Unknown error"

/-- Modelled from the spec: the observable state of the native engine
context (not part of the repository).  It bundles the per-layer and
per-sprite stores, the palette and tilemap stores (indexed by handle), the
sprite z-order list and the last-error slot (spec section 7: errors are
reported via a last-error slot readable after any failing call). -/
structure NativeState where
  numLayers : Nat
  numSprites : Nat
  layerWidth : Nat → Int
  layerHeight : Nat → Int
  layerPosition : Nat → Int × Int
  layerTilemap : Nat → Option Nat
  layerBitmap : Nat → Option Nat
  spriteSpriteset : Nat → Option Nat
  spritePicture : Nat → Int
  firstSprite : Option Nat
  nextSprite : Nat → Option Nat
  paletteSize : Nat → Nat
  paletteColor : Nat → Nat → Nat × Nat × Nat
  tilemapRows : Nat → Nat
  tilemapCols : Nat → Nat
  tilemapTiles : Nat → Nat → Nat → Tile
  tilemapTileset : Nat → Option Nat
  ssNames : Nat → List String
  lastError : Nat

/-- `_raise_exception(result)`: if the native result is not `True`, read the
last-error slot, fetch its error string and raise `TilengineException`.
Returning `none` models falling through without raising. -/
def raise_exception (st : NativeState) (result : Bool) : Option TilengineException :=
  if result = true then none
  else some ⟨errorString st.lastError⟩

/-- Modelled from the spec: `TLN_SetLayer` — fails with `IndexOutOfRange`
when the layer index is out of the declared range and with
`InvalidReference` when the tilemap reference is null; otherwise assigns
the tilemap to the layer and succeeds.  The optional tileset argument does
not affect validity (a null tileset selects the tilemap's own tileset). -/
def TLN_SetLayer (st : NativeState) (idx : Nat) (tileset : Option Nat)
    (tilemap : Option Nat) : NativeState × Bool :=
  if idx < st.numLayers then
    match tilemap with
    | none => ({ st with lastError := Error.REF_TILEMAP }, false)
    | some tm =>
        ({ st with
            layerTilemap := fun i => if i = idx then some tm else st.layerTilemap i,
            lastError := Error.OK }, true)
  else ({ st with lastError := Error.IDX_LAYER }, false)

/-- Modelled from the spec: `TLN_SetLayerTilemap` — same failure semantics
as `TLN_SetLayer`, assigning a tilemap as the layer's content source and
clearing any bitmap content. -/
def TLN_SetLayerTilemap (st : NativeState) (idx : Nat)
    (tilemap : Option Nat) : NativeState × Bool :=
  if idx < st.numLayers then
    match tilemap with
    | none => ({ st with lastError := Error.REF_TILEMAP }, false)
    | some tm =>
        ({ st with
            layerTilemap := fun i => if i = idx then some tm else st.layerTilemap i,
            layerBitmap := fun i => if i = idx then none else st.layerBitmap i,
            lastError := Error.OK }, true)
  else ({ st with lastError := Error.IDX_LAYER }, false)

/-- Modelled from the spec: `TLN_SetLayerBitmap` — fails with
`IndexOutOfRange` on a bad layer index, `InvalidReference` on a null
bitmap; otherwise assigns a bitmap as the layer's content source and
clears any tilemap content. -/
def TLN_SetLayerBitmap (st : NativeState) (idx : Nat)
    (bitmap : Option Nat) : NativeState × Bool :=
  if idx < st.numLayers then
    match bitmap with
    | none => ({ st with lastError := Error.REF_BITMAP }, false)
    | some bm =>
        ({ st with
            layerBitmap := fun i => if i = idx then some bm else st.layerBitmap i,
            layerTilemap := fun i => if i = idx then none else st.layerTilemap i,
            lastError := Error.OK }, true)
  else ({ st with lastError := Error.IDX_LAYER }, false)

/-- Modelled from the spec: `TLN_GetLayerWidth` — width in pixels of the
layer's assigned content. -/
def TLN_GetLayerWidth (st : NativeState) (idx : Nat) : Int :=
  st.layerWidth idx

/-- Modelled from the spec: `TLN_GetLayerHeight` — height in pixels of the
layer's assigned content. -/
def TLN_GetLayerHeight (st : NativeState) (idx : Nat) : Int :=
  st.layerHeight idx

/-- Modelled from the spec: `TLN_SetLayerPosition` — fails with
`IndexOutOfRange` on a bad layer index; otherwise stores the integer
position, wrapping out-of-range coordinates modulo the content size. -/
def TLN_SetLayerPosition (st : NativeState) (idx : Nat) (x y : Int) :
    NativeState × Bool :=
  if idx < st.numLayers then
    ({ st with
        layerPosition := fun i =>
          if i = idx then (x % st.layerWidth idx, y % st.layerHeight idx)
          else st.layerPosition i,
        lastError := Error.OK }, true)
  else ({ st with lastError := Error.IDX_LAYER }, false)

/-- Modelled from the spec: `TLN_SetTilemapTileset2` — associates a tileset
with slot 0 of a tilemap (only what `Layer.setup`'s optional-tileset path
needs; the tilemap handle is assumed valid there). -/
def TLN_SetTilemapTileset2 (st : NativeState) (tm : Nat)
    (tileset : Option Nat) : NativeState × Bool :=
  ({ st with
      tilemapTileset := fun h => if h = tm then tileset else st.tilemapTileset h },
    true)

/-- `Layer` object of the binding: `index` (also its `_as_parameter_`),
cached `width`/`height`, and the three mutually-referencing content
attributes, all `None` after `__init__`. -/
structure Layer where
  index : Nat
  width : Int
  height : Int
  tilemap : Option Nat
  bitmap : Option Nat
  objectlist : Option Nat

/-- `Layer(index)` constructor. -/
def Layer.init (index : Nat) : Layer :=
  { index := index, width := 0, height := 0,
    tilemap := none, bitmap := none, objectlist := none }

/-- `Layer.setup(tilemap, tileset=None)`: calls `TLN_SetLayer`; on success
refreshes `width`/`height`, assigns `self.tilemap` (leaving `self.bitmap`
and `self.objectlist` untouched) and, when a tileset was given, forwards it
via `tilemap.set_tileset`; on failure raises. -/
def Layer.setup (st : NativeState) (l : Layer) (tilemap : Option Nat)
    (tileset : Option Nat) : NativeState × Layer × Option TilengineException :=
  let r := TLN_SetLayer st l.index tileset tilemap
  if r.2 = true then
    let l' := { l with
      width := TLN_GetLayerWidth r.1 l.index,
      height := TLN_GetLayerHeight r.1 l.index,
      tilemap := tilemap }
    match tileset with
    | some _ =>
        match tilemap with
        | some tm => ((TLN_SetTilemapTileset2 r.1 tm tileset).1, l', none)
        | none => (r.1, l', none)
    | none => (r.1, l', none)
  else (r.1, l, raise_exception r.1 false)

/-- `Layer.set_tilemap(tilemap)`: calls `TLN_SetLayerTilemap`; on success
refreshes `width`/`height`, assigns `self.tilemap` and clears `self.bitmap`
and `self.objectlist`; on failure raises. -/
def Layer.set_tilemap (st : NativeState) (l : Layer) (tilemap : Option Nat) :
    NativeState × Layer × Option TilengineException :=
  let r := TLN_SetLayerTilemap st l.index tilemap
  if r.2 = true then
    (r.1, { l with
      width := TLN_GetLayerWidth r.1 l.index,
      height := TLN_GetLayerHeight r.1 l.index,
      tilemap := tilemap, bitmap := none, objectlist := none }, none)
  else (r.1, l, raise_exception r.1 false)

/-- `Layer.set_bitmap(bitmap)`: calls `TLN_SetLayerBitmap`; on success
refreshes `width`/`height`, assigns `self.bitmap` and clears `self.tilemap`
and `self.objectlist`; on failure raises. -/
def Layer.set_bitmap (st : NativeState) (l : Layer) (bitmap : Option Nat) :
    NativeState × Layer × Option TilengineException :=
  let r := TLN_SetLayerBitmap st l.index bitmap
  if r.2 = true then
    (r.1, { l with
      width := TLN_GetLayerWidth r.1 l.index,
      height := TLN_GetLayerHeight r.1 l.index,
      bitmap := bitmap, tilemap := none, objectlist := none }, none)
  else (r.1, l, raise_exception r.1 false)

/-- Number of non-`None` attributes among `tilemap`, `bitmap`,
`objectlist` of a `Layer` object. -/
def Layer.contentCount (l : Layer) : Nat :=
  (if l.tilemap.isSome then 1 else 0) +
  (if l.bitmap.isSome then 1 else 0) +
  (if l.objectlist.isSome then 1 else 0)

/-- Python `int(x)` applied to a number: truncation toward zero
(`Int.div` is T-division, and `q.num / q.den` is already reduced).
Fractional arguments of the binding are modelled as rationals. -/
def pyInt (q : ℚ) : ℤ :=
  Int.div q.num (q.den : ℤ)

/-- `Layer.set_position(x, y)`: truncates both coordinates with `int()` and
forwards them to `TLN_SetLayerPosition`; raises when the native call
fails.  The `Layer` object itself is not mutated. -/
def Layer.set_position (st : NativeState) (l : Layer) (x y : ℚ) :
    NativeState × Option TilengineException :=
  let r := TLN_SetLayerPosition st l.index (pyInt x) (pyInt y)
  (r.1, raise_exception r.1 r.2)

/-- The pair of integer arguments `Layer.set_position` passes to the native
call (after the `int()` casts). -/
def Layer.setPositionArgs (x y : ℚ) : ℤ × ℤ :=
  (pyInt x, pyInt y)

/-- `Sprite` object of the binding: `index` (also its `_as_parameter_`)
and the `spriteset` attribute, `None` after `__init__`. -/
structure Sprite where
  index : Nat
  spriteset : Option Nat

/-- `Sprite(index)` constructor. -/
def Sprite.init (index : Nat) : Sprite :=
  { index := index, spriteset := none }

/-- Modelled from the spec: `TLN_ConfigSprite` — fails with
`IndexOutOfRange` when the sprite index is out of the declared range and
with `InvalidReference` when the spriteset is null; otherwise records the
spriteset for the sprite slot and succeeds.  The flags word only affects
rendering state not tracked here. -/
def TLN_ConfigSprite (st : NativeState) (idx : Nat) (spriteset : Option Nat)
    (flags : Nat) : NativeState × Bool :=
  if idx < st.numSprites then
    match spriteset with
    | none => ({ st with lastError := Error.REF_SPRITESET }, false)
    | some ss =>
        ({ st with
            spriteSpriteset := fun i => if i = idx then some ss else st.spriteSpriteset i,
            lastError := Error.OK }, true)
  else ({ st with lastError := Error.IDX_SPRITE }, false)

/-- Modelled from the spec: `TLN_SetSpriteSet` — same failure semantics as
`TLN_ConfigSprite`, assigning the spriteset of a sprite slot. -/
def TLN_SetSpriteSet (st : NativeState) (idx : Nat) (spriteset : Option Nat) :
    NativeState × Bool :=
  if idx < st.numSprites then
    match spriteset with
    | none => ({ st with lastError := Error.REF_SPRITESET }, false)
    | some ss =>
        ({ st with
            spriteSpriteset := fun i => if i = idx then some ss else st.spriteSpriteset i,
            lastError := Error.OK }, true)
  else ({ st with lastError := Error.IDX_SPRITE }, false)

/-- `Sprite.setup(spriteset, flags=0)`: calls `TLN_ConfigSprite`, then
assigns `self.spriteset = spriteset` unconditionally, and only afterwards
checks the native result with `_raise_exception` — so the attribute is
updated even when the native call failed. -/
def Sprite.setup (st : NativeState) (sp : Sprite) (spriteset : Option Nat)
    (flags : Nat) : NativeState × Sprite × Option TilengineException :=
  let r := TLN_ConfigSprite st sp.index spriteset flags
  let sp' := { sp with spriteset := spriteset }
  (r.1, sp', raise_exception r.1 r.2)

/-- `Sprite.set_spriteset(spriteset)`: calls `TLN_SetSpriteSet`, assigns
`self.spriteset = spriteset` unconditionally, then checks the result. -/
def Sprite.set_spriteset (st : NativeState) (sp : Sprite)
    (spriteset : Option Nat) : NativeState × Sprite × Option TilengineException :=
  let r := TLN_SetSpriteSet st sp.index spriteset
  let sp' := { sp with spriteset := spriteset }
  (r.1, sp', raise_exception r.1 r.2)

/-- Modelled from the spec: `TLN_SetSpritePicture` — fails with
`IndexOutOfRange` on a bad sprite index or picture index, with
`InvalidReference` when the sprite has no spriteset; otherwise stores the
picture index for the slot. -/
def TLN_SetSpritePicture (st : NativeState) (idx : Nat) (pic : Int) :
    NativeState × Bool :=
  if idx < st.numSprites then
    match st.spriteSpriteset idx with
    | none => ({ st with lastError := Error.REF_SPRITESET }, false)
    | some ss =>
        if 0 ≤ pic ∧ pic < ((st.ssNames ss).length : Int) then
          ({ st with
              spritePicture := fun i => if i = idx then pic else st.spritePicture i,
              lastError := Error.OK }, true)
        else ({ st with lastError := Error.IDX_PICTURE }, false)
  else ({ st with lastError := Error.IDX_SPRITE }, false)

/-- Modelled from the spec: `TLN_FindSpritesetSprite` — looks a picture
name up in the spriteset's named collection and returns its entry index,
or `-1` when the name is not found (or the spriteset reference is null). -/
def TLN_FindSpritesetSprite (st : NativeState) (spriteset : Option Nat)
    (name : String) : Int :=
  match spriteset with
  | none => -1
  | some ss =>
      match (st.ssNames ss).findIdx? (fun n => n = name) with
      | some i => (i : Int)
      | none => -1

/-- A Python argument of `Sprite.set_picture`: an `int`, a `str`, or a
value of any other type. -/
inductive PyVal where
  | pint (n : Int)
  | pstr (s : String)
  | pother

/-- `Sprite.set_picture(picture)`: `ok = False`; on an `int` argument it
calls the native picture setter; on a `str` argument it first resolves the
name through `TLN_FindSpritesetSprite(self.spriteset, picture)` and, when
the lookup yields `-1`, `return`s without calling the setter and without
reaching `_raise_exception`; on any other argument type it also `return`s
immediately.  Only the paths that ran a setter reach `_raise_exception`. -/
def Sprite.set_picture (st : NativeState) (sp : Sprite) (picture : PyVal) :
    NativeState × Option TilengineException :=
  match picture with
  | .pint n =>
      let r := TLN_SetSpritePicture st sp.index n
      (r.1, raise_exception r.1 r.2)
  | .pstr s =>
      let entry := TLN_FindSpritesetSprite st sp.spriteset s
      if entry ≠ -1 then
        let r := TLN_SetSpritePicture st sp.index entry
        (r.1, raise_exception r.1 r.2)
      else (st, none)
  | .pother => (st, none)

/-- Modelled from the spec: `TLN_SetFirstSprite` — designates the head of
the explicit z-order linked list; fails with `IndexOutOfRange` on a bad
sprite index. -/
def TLN_SetFirstSprite (st : NativeState) (idx : Nat) : NativeState × Bool :=
  if idx < st.numSprites then
    ({ st with firstSprite := some idx, lastError := Error.OK }, true)
  else ({ st with lastError := Error.IDX_SPRITE }, false)

/-- Modelled from the spec: `TLN_SetNextSprite` — links `nxt` after `idx`
in the z-order list; fails with `IndexOutOfRange` when either index is out
of range. -/
def TLN_SetNextSprite (st : NativeState) (idx nxt : Nat) : NativeState × Bool :=
  if idx < st.numSprites ∧ nxt < st.numSprites then
    ({ st with
        nextSprite := fun i => if i = idx then some nxt else st.nextSprite i,
        lastError := Error.OK }, true)
  else ({ st with lastError := Error.IDX_SPRITE }, false)

/-- `Sprite.set_first()`: forwards to `TLN_SetFirstSprite` and raises on a
failing native result. -/
def Sprite.set_first (st : NativeState) (sp : Sprite) :
    NativeState × Option TilengineException :=
  let r := TLN_SetFirstSprite st sp.index
  (r.1, raise_exception r.1 r.2)

/-- `Sprite.set_next(next)`: forwards to `TLN_SetNextSprite` and raises on
a failing native result. -/
def Sprite.set_next (st : NativeState) (sp : Sprite) (next : Nat) :
    NativeState × Option TilengineException :=
  let r := TLN_SetNextSprite st sp.index next
  (r.1, raise_exception r.1 r.2)

/-- Walk up to `fuel` links of the z-order list starting at sprite `i`. -/
def paintChain (nxt : Nat → Option Nat) : Nat → Nat → List Nat
  | 0, _ => []
  | fuel + 1, i =>
      i :: (match nxt i with
            | none => []
            | some j => paintChain nxt fuel j)

/-- Modelled from the spec: the composite (paint) order of the next
rendered frame — the sprites visited along the explicit singly linked list
rooted at the "first sprite" pointer, first drawn = bottom-most. -/
def paintOrder (st : NativeState) : List Nat :=
  match st.firstSprite with
  | none => []
  | some i => paintChain st.nextSprite st.numSprites i

/-- Modelled from the spec: `TLN_SetPaletteColor` — fails with
`IndexOutOfRange` when the palette entry is out of the palette's declared
range; otherwise stores the RGB components (masked to 8 bits by the
`c_ubyte` marshalling). -/
def TLN_SetPaletteColor (st : NativeState) (pal entry r g b : Nat) :
    NativeState × Bool :=
  if entry < st.paletteSize pal then
    ({ st with
        paletteColor := fun p e =>
          if p = pal ∧ e = entry then (r % 256, g % 256, b % 256)
          else st.paletteColor p e,
        lastError := Error.OK }, true)
  else ({ st with lastError := Error.IDX_PICTURE }, false)

/-- `Palette.set_color(entry, color)`: forwards the entry index and the
color components to `TLN_SetPaletteColor` and passes the native result to
`_raise_exception`. -/
def Palette.set_color (st : NativeState) (pal : Nat) (entry : Nat)
    (color : Color) : NativeState × Option TilengineException :=
  let r := TLN_SetPaletteColor st pal entry color.r color.g color.b
  (r.1, raise_exception r.1 r.2)

/-- Modelled from the spec: `TLN_SetTilemapTile` — fails with
`IndexOutOfRange` when the cell coordinates are outside the rows × cols
grid; otherwise stores the tile (`c_ushort` fields masked to 16 bits). -/
def TLN_SetTilemapTile (st : NativeState) (tm r c : Nat) (t : Tile) :
    NativeState × Bool :=
  if r < st.tilemapRows tm ∧ c < st.tilemapCols tm then
    ({ st with
        tilemapTiles := fun h r' c' =>
          if h = tm ∧ r' = r ∧ c' = c then
            { index := t.index % 65536, flags := t.flags % 65536 }
          else st.tilemapTiles h r' c',
        lastError := Error.OK }, true)
  else ({ st with lastError := Error.IDX_PICTURE }, false)

/-- Modelled from the spec: `TLN_GetTilemapTile` — fails with
`IndexOutOfRange` on out-of-range cell coordinates; otherwise fills the
caller's structure with the stored tile. -/
def TLN_GetTilemapTile (st : NativeState) (tm r c : Nat) :
    NativeState × Tile × Bool :=
  if r < st.tilemapRows tm ∧ c < st.tilemapCols tm then
    ({ st with lastError := Error.OK }, st.tilemapTiles tm r c, true)
  else ({ st with lastError := Error.IDX_PICTURE }, { index := 0, flags := 0 }, false)

/-- `Tilemap.set_tile(row, col, tile_info)`: with a tile it forwards it to
`TLN_SetTilemapTile`; with `None` it builds a fresh `Tile()` with
`index = 0` (all-zero ctypes structure) and forwards that; either way the
native result goes to `_raise_exception`. -/
def Tilemap.set_tile (st : NativeState) (tm : Nat) (row col : Nat)
    (tile_info : Option Tile) : NativeState × Option TilengineException :=
  match tile_info with
  | some t =>
      let r := TLN_SetTilemapTile st tm row col t
      (r.1, raise_exception r.1 r.2)
  | none =>
      let r := TLN_SetTilemapTile st tm row col { index := 0, flags := 0 }
      (r.1, raise_exception r.1 r.2)

/-- `Tilemap.get_tile(row, col, tile_info)`: forwards to
`TLN_GetTilemapTile`, which fills the user-provided structure (returned
here as a value), and passes the native result to `_raise_exception`. -/
def Tilemap.get_tile (st : NativeState) (tm : Nat) (row col : Nat) :
    NativeState × Tile × Option TilengineException :=
  let r := TLN_GetTilemapTile st tm row col
  (r.1, r.2.1, raise_exception r.1 r.2.2)

/-- `Animation` object of the binding: just its slot index. -/
structure Animation where
  index : Nat

/-- `Animation(index)` constructor. -/
def Animation.init (index : Nat) : Animation :=
  { index := index }

/-- `Engine` object of the binding: the tuples built by `__init__` and the
version number returned by `TLN_GetVersion` (the callback fields start as
`None` and the version-warning `print` is I/O with no state effect). -/
structure Engine where
  layers : List Layer
  sprites : List Sprite
  animations : List Animation
  version : Nat

/-- `Engine.__init__(handle, num_layers, num_sprites, num_animations)`:
builds `layers`, `sprites` and `animations` as tuples of freshly
constructed objects over `range`. -/
def Engine.engineInit (version : Nat)
    (num_layers num_sprites num_animations : Nat) : Engine :=
  { layers := (List.range num_layers).map Layer.init,
    sprites := (List.range num_sprites).map Sprite.init,
    animations := (List.range num_animations).map Animation.init,
    version := version }

/-- `Engine.create(width, height, num_layers, num_sprites,
num_animations)`: calls `TLN_Init` (its native handle is the `handle`
argument here; `width`/`height` only size the native framebuffer); a
non-`None` handle yields the constructed `Engine`, a `None` handle falls
into `_raise_exception()` (modelled as `none`). -/
def Engine.create (handle : Option Nat) (version : Nat) (width height : Nat)
    (num_layers num_sprites num_animations : Nat) : Option Engine :=
  match handle with
  | some _ => some (Engine.engineInit version num_layers num_sprites num_animations)
  | none => none

/-- One observable callback invocation during `TLN_UpdateFrame`. -/
inductive FrameEvent where
  | raster (line : Nat)
  | frameCb (frame : Nat)
deriving Repr, DecidableEq

/-- Modelled from the spec: the scanline loop of the frame scheduler —
for each scanline `line`, `line + 1`, … up to `height - 1` in order, the
registered raster callback is invoked with the scanline number before the
line is composited. -/
def renderScanlines (height line : Nat) : List FrameEvent :=
  if h : line < height then
    FrameEvent.raster line :: renderScanlines height (line + 1)
  else []
termination_by height - line

/-- Modelled from the spec: `TLN_UpdateFrame` — the frame scheduler runs
the scanline loop from line 0 and, after the last scanline, invokes the
registered frame callback once with the frame number.  The value is the
trace of callback invocations of the rendered frame. -/
def TLN_UpdateFrame (height frame : Nat) : List FrameEvent :=
  renderScanlines height 0 ++ [FrameEvent.frameCb frame]

/-- `Engine.update_frame(num_frame=0)`: forwards to `TLN_UpdateFrame`
(the binding ignores the native result). -/
def Engine.update_frame (height : Nat) (num_frame : Nat := 0) : List FrameEvent :=
  TLN_UpdateFrame height num_frame

/-- The scanline number of a raster-callback invocation, `none` for the
frame callback. -/
def rasterLine? (e : FrameEvent) : Option Nat :=
  match e with
  | .raster i => some i
  | .frameCb _ => none

/-- The scanline numbers of the raster-callback invocations in a trace, in
invocation order. -/
def rasterLines (trace : List FrameEvent) : List Nat :=
  trace.filterMap rasterLine?

/-- Value of one hexadecimal digit as accepted by Python `int(_, 16)`, or
`none` for a character that makes it raise `ValueError`. -/
def hexVal (c : Char) : Option Nat :=
  if '0' ≤ c ∧ c ≤ '9' then some (c.toNat - 48)
  else if 'a' ≤ c ∧ c ≤ 'f' then some (c.toNat - 87)
  else if 'A' ≤ c ∧ c ≤ 'F' then some (c.toNat - 55)
  else none

/-- Python `int(s, 16)` on the (possibly shorter than requested) slice `s`:
`none` models the `ValueError` raised on an empty or non-hexadecimal
string. -/
def pyIntHex (cs : List Char) : Option Nat :=
  if cs.isEmpty then none
  else cs.foldl
    (fun acc c =>
      match acc, hexVal c with
      | some a, some d => some (16 * a + d)
      | _, _ => none)
    (some 0)

/-- `Color.fromstring(string)`: parses a css-style `#rrggbb` string by
slicing `string[1:3]`, `string[3:5]`, `string[5:7]` and converting each
slice with `int(_, 16)`; the string is modelled as its character list and
a parse failure (Python exception) as `none`. -/
def Color.fromstring (string : List Char) : Option Color :=
  match pyIntHex ((string.drop 1).take 2),
        pyIntHex ((string.drop 3).take 2),
        pyIntHex ((string.drop 5).take 2) with
  | some r, some g, some b => some { r := r, g := g, b := b }
  | _, _, _ => none

/-- Lowercase hexadecimal digit character for `n < 16` (used to build the
claim's input strings). -/
def hexDigit (n : Nat) : Char :=
  if n < 10 then Char.ofNat (48 + n) else Char.ofNat (87 + n)

/-- Two-digit lowercase hexadecimal encoding of `n < 256`. -/
def toHex2 (n : Nat) : List Char :=
  [hexDigit (n / 16), hexDigit (n % 16)]

/-- A concrete native context used by counterexamples and witnesses:
one engine with 4 layers, 4 sprites, a 64×48-pixel layer content, a
10×10 tilemap handle space, 256-entry palettes and a spriteset 0 with two
named pictures. -/
def baseState : NativeState :=
  { numLayers := 4
    numSprites := 4
    layerWidth := fun _ => 64
    layerHeight := fun _ => 48
    layerPosition := fun _ => (0, 0)
    layerTilemap := fun _ => none
    layerBitmap := fun _ => none
    spriteSpriteset := fun _ => none
    spritePicture := fun _ => 0
    firstSprite := none
    nextSprite := fun _ => none
    paletteSize := fun _ => 256
    paletteColor := fun _ _ => (0, 0, 0)
    tilemapRows := fun _ => 10
    tilemapCols := fun _ => 10
    tilemapTiles := fun _ _ _ => { index := 0, flags := 0 }
    tilemapTileset := fun _ => none
    ssNames := fun _ => ["idle", "walk"]
    lastError := Error.OK }

/-!
## Theorems
-/

/-- C1 counterexample: on layer 0, a successful `set_bitmap` followed by a
successful `setup` leaves BOTH `bitmap` and `tilemap` non-`None` — `setup`
is a content-assigning call after which the number of non-`None` content
attributes is 2, not 1, refuting the claimed mutual exclusion. -/
theorem C1_counterexample :
    (Layer.set_bitmap baseState (Layer.init 0) (some 1)).2.2 = none ∧
    (Layer.setup (Layer.set_bitmap baseState (Layer.init 0) (some 1)).1
        (Layer.set_bitmap baseState (Layer.init 0) (some 1)).2.1
        (some 2) none).2.2 = none ∧
    Layer.contentCount
      (Layer.setup (Layer.set_bitmap baseState (Layer.init 0) (some 1)).1
        (Layer.set_bitmap baseState (Layer.init 0) (some 1)).2.1
        (some 2) none).2.1 = 2 := by
  decide

/-- C1 (amended): after a successful `Layer.set_tilemap` or
`Layer.set_bitmap`, exactly one of `tilemap`, `bitmap`, `objectlist` is
non-`None`; `Layer.setup`, however, assigns `tilemap` without clearing the
other two attributes, which keep their previous values. -/
theorem C1_layer_content_exclusivity (st : NativeState) (l : Layer)
    (tm bm ts : Option Nat) :
    ((Layer.set_tilemap st l tm).2.2 = none →
      Layer.contentCount (Layer.set_tilemap st l tm).2.1 = 1) ∧
    ((Layer.set_bitmap st l bm).2.2 = none →
      Layer.contentCount (Layer.set_bitmap st l bm).2.1 = 1) ∧
    ((Layer.setup st l tm ts).2.2 = none →
      (Layer.setup st l tm ts).2.1.tilemap = tm ∧
      (Layer.setup st l tm ts).2.1.bitmap = l.bitmap ∧
      (Layer.setup st l tm ts).2.1.objectlist = l.objectlist) := by
  refine ⟨?_, ?_, ?_⟩
  · intro h
    unfold Layer.set_tilemap TLN_SetLayerTilemap at *
    by_cases hi : l.index < st.numLayers
    · cases tm with
      | none => simp [hi, raise_exception] at h
      | some t => simp [hi, Layer.contentCount]
    · simp [hi, raise_exception] at h
  · intro h
    unfold Layer.set_bitmap TLN_SetLayerBitmap at *
    by_cases hi : l.index < st.numLayers
    · cases bm with
      | none => simp [hi, raise_exception] at h
      | some b => simp [hi, Layer.contentCount]
    · simp [hi, raise_exception] at h
  · intro h
    unfold Layer.setup TLN_SetLayer at *
    by_cases hi : l.index < st.numLayers
    · cases tm with
      | none => simp [hi, raise_exception] at h
      | some t => cases ts <;> simp [hi]
    · simp [hi, raise_exception] at h

/-- C1 witness: the amended exclusivity applied on concrete successful
calls. -/
theorem C1_layer_content_exclusivity_witness :
    Layer.contentCount (Layer.set_tilemap baseState (Layer.init 0) (some 3)).2.1 = 1 ∧
    Layer.contentCount (Layer.set_bitmap baseState (Layer.init 1) (some 5)).2.1 = 1 ∧
    (Layer.setup baseState (Layer.init 2) (some 3) none).2.1.tilemap = some 3 :=
  ⟨(C1_layer_content_exclusivity baseState (Layer.init 0) (some 3) (some 5) none).1
      (by decide),
   (C1_layer_content_exclusivity baseState (Layer.init 1) (some 3) (some 5) none).2.1
      (by decide),
   ((C1_layer_content_exclusivity baseState (Layer.init 2) (some 3) (some 5) none).2.2
      (by decide)).1⟩

/-- C2 counterexample: `Sprite.setup` on sprite index 9 of a 4-sprite
context fails with the `IndexOutOfRange` exception, yet the Python-side
`spriteset` attribute changes from `None` to the new value — the failing
call does not leave the observable state unchanged. -/
theorem C2_counterexample :
    (Sprite.setup baseState (Sprite.init 9) (some 7) 0).2.2 =
      some { value := errorString Error.IDX_SPRITE } ∧
    (Sprite.init 9).spriteset = none ∧
    (Sprite.setup baseState (Sprite.init 9) (some 7) 0).2.1.spriteset = some 7 := by
  decide

/-- C2 (amended): a mutating call on an out-of-range sprite or layer index
raises `TilengineException` with the `IndexOutOfRange` error string and
leaves the native stores unchanged (only the last-error slot is written);
but `Sprite.setup` and `Sprite.set_spriteset` assign the Python-side
`spriteset` attribute before checking the native result, so that attribute
IS changed by the failing call. -/
theorem C2_invalid_index (st : NativeState) (sp : Sprite) (ss : Option Nat)
    (flags : Nat) (l : Layer) (x y : ℚ)
    (hs : ¬ sp.index < st.numSprites) (hl : ¬ l.index < st.numLayers) :
    ((Sprite.setup st sp ss flags).2.2 =
        some { value := errorString Error.IDX_SPRITE } ∧
      (Sprite.setup st sp ss flags).1.spriteSpriteset = st.spriteSpriteset ∧
      (Sprite.setup st sp ss flags).1.lastError = Error.IDX_SPRITE ∧
      (Sprite.setup st sp ss flags).2.1.spriteset = ss) ∧
    ((Sprite.set_spriteset st sp ss).2.2 =
        some { value := errorString Error.IDX_SPRITE } ∧
      (Sprite.set_spriteset st sp ss).1.spriteSpriteset = st.spriteSpriteset ∧
      (Sprite.set_spriteset st sp ss).2.1.spriteset = ss) ∧
    ((Layer.set_position st l x y).2 =
        some { value := errorString Error.IDX_LAYER } ∧
      (Layer.set_position st l x y).1.layerPosition = st.layerPosition) := by
  refine ⟨⟨?_, ?_, ?_, ?_⟩, ⟨?_, ?_, ?_⟩, ⟨?_, ?_⟩⟩ <;>
    simp [Sprite.setup, Sprite.set_spriteset, Layer.set_position,
      TLN_ConfigSprite, TLN_SetSpriteSet, TLN_SetLayerPosition,
      raise_exception, hs, hl]

/-- C2 witness: the amended statement on a concrete out-of-range sprite
and layer. -/
theorem C2_invalid_index_witness :
    (Sprite.setup baseState (Sprite.init 9) (some 7) 0).2.1.spriteset = some 7 ∧
    (Layer.set_position baseState (Layer.init 8) 1 2).2 =
      some { value := errorString Error.IDX_LAYER } :=
  ⟨(C2_invalid_index baseState (Sprite.init 9) (some 7) 0 (Layer.init 8) 1 2
      (by decide) (by decide)).1.2.2.2,
   (C2_invalid_index baseState (Sprite.init 9) (some 7) 0 (Layer.init 8) 1 2
      (by decide) (by decide)).2.2.1⟩

/-- C3 counterexample: `set_position` truncates its coordinates with
`int()`, so the fractional position 1/2 is forwarded as the same native
arguments as position 0 and the stored native position is identical —
sub-pixel scroll positions are not representable through the binding. -/
theorem C3_counterexample :
    Layer.setPositionArgs (Rat.divInt 1 2) 0 = Layer.setPositionArgs 0 0 ∧
    Rat.divInt 1 2 ≠ (0 : ℚ) ∧
    (Layer.set_position baseState (Layer.init 0) (Rat.divInt 1 2) 0).1.layerPosition 0 =
      (Layer.set_position baseState (Layer.init 0) 0 0).1.layerPosition 0 := by
  decide

/-- C3 (amended): for a valid layer index, `set_position` never raises; it
accepts fractional coordinates but truncates them toward zero with `int()`
before forwarding, and the native layer stores the truncated coordinates
wrapped modulo the content size. -/
theorem C3_set_position (st : NativeState) (l : Layer) (x y : ℚ)
    (h : l.index < st.numLayers) :
    (Layer.set_position st l x y).2 = none ∧
    (Layer.set_position st l x y).1.layerPosition l.index =
      (pyInt x % st.layerWidth l.index, pyInt y % st.layerHeight l.index) ∧
    Layer.setPositionArgs x y = (pyInt x, pyInt y) := by
  refine ⟨?_, ?_, rfl⟩ <;>
    simp [Layer.set_position, TLN_SetLayerPosition, raise_exception, h]

/-- C3 witness: the amended statement at layer 0 of the concrete context
with fractional coordinates 131/2 and -7/2: the call returns normally and
stores the truncated, wrapped position (65 mod 64, -3 mod 48) = (1, 45). -/
theorem C3_set_position_witness :
    (Layer.set_position baseState (Layer.init 0) (Rat.divInt 131 2)
      (Rat.divInt (-7) 2)).2 = none ∧
    (Layer.set_position baseState (Layer.init 0) (Rat.divInt 131 2)
      (Rat.divInt (-7) 2)).1.layerPosition (Layer.init 0).index = (1, 45) := by
  have h := C3_set_position baseState (Layer.init 0) (Rat.divInt 131 2)
    (Rat.divInt (-7) 2) (by decide)
  exact ⟨h.1, by rw [h.2.1]; decide⟩

/-- C4 counterexample: `Sprite.set_picture` with a name absent from the
spriteset gets `-1` (not `True`) from the native lookup, yet returns
normally — no exception is raised and no state changes, so a failing
mutating call does return normally. -/
theorem C4_counterexample :
    TLN_FindSpritesetSprite baseState (some 0) "missing" = -1 ∧
    (Sprite.set_picture baseState { index := 0, spriteset := some 0 }
      (.pstr "missing")).2 = none ∧
    (Sprite.set_picture baseState { index := 0, spriteset := some 0 }
      (.pstr "missing")).1.spritePicture 0 = baseState.spritePicture 0 := by
  decide

/-- C4 (amended): every native result passed to `_raise_exception` that is
not `True` raises a `TilengineException` whose payload is the error string
of the last-error slot read after the call (shown in general and for a
failing `Palette.set_color`); but `Sprite.set_picture` bypasses
`_raise_exception` when a string name is not found (native lookup `-1`) or
when the argument is neither `int` nor `str`, returning normally with all
state unchanged. -/
theorem C4_error_raising (st : NativeState) (pal entry : Nat) (color : Color)
    (sp : Sprite) (name : String)
    (hentry : ¬ entry < st.paletteSize pal)
    (hfind : TLN_FindSpritesetSprite st sp.spriteset name = -1) :
    (∀ s : NativeState, raise_exception s false =
      some { value := errorString s.lastError }) ∧
    (Palette.set_color st pal entry color).2 =
      some { value :=
        errorString (Palette.set_color st pal entry color).1.lastError } ∧
    (Palette.set_color st pal entry color).1.lastError = Error.IDX_PICTURE ∧
    Sprite.set_picture st sp (.pstr name) = (st, none) ∧
    Sprite.set_picture st sp .pother = (st, none) := by
  refine ⟨fun s => by simp [raise_exception], ?_, ?_, ?_, rfl⟩
  · simp [Palette.set_color, TLN_SetPaletteColor, raise_exception, hentry]
  · simp [Palette.set_color, TLN_SetPaletteColor, hentry]
  · simp [Sprite.set_picture, hfind]

/-- C4 witness: the amended statement on a concrete out-of-range palette
entry and a concrete unfound picture name. -/
theorem C4_error_raising_witness :
    (Palette.set_color baseState 0 300 { r := 1, g := 2, b := 3 }).2 =
      some { value := errorString Error.IDX_PICTURE } ∧
    Sprite.set_picture baseState { index := 0, spriteset := some 0 }
      (.pstr "missing") = (baseState, none) := by
  have h := C4_error_raising baseState 0 300 { r := 1, g := 2, b := 3 }
    { index := 0, spriteset := some 0 } "missing" (by decide) (by decide)
  exact ⟨by rw [h.2.1, h.2.2.1], h.2.2.2.1⟩

/-- C5 (confirmed): for an in-range cell (row, col), writing the tile
{index = 5, flags = FLIPX} with `set_tile` and reading it back with
`get_tile` succeeds on both calls and returns exactly {index = 5,
flags = FLIPX}. -/
theorem C5_tile_roundtrip (st : NativeState) (tm row col : Nat)
    (hr : row < st.tilemapRows tm) (hc : col < st.tilemapCols tm) :
    (Tilemap.set_tile st tm row col (some { index := 5, flags := Flags.FLIPX })).2
      = none ∧
    (Tilemap.get_tile
      (Tilemap.set_tile st tm row col
        (some { index := 5, flags := Flags.FLIPX })).1 tm row col).2.2 = none ∧
    (Tilemap.get_tile
      (Tilemap.set_tile st tm row col
        (some { index := 5, flags := Flags.FLIPX })).1 tm row col).2.1 =
      { index := 5, flags := Flags.FLIPX } := by
  refine ⟨?_, ?_, ?_⟩ <;>
    simp [Tilemap.set_tile, Tilemap.get_tile, TLN_SetTilemapTile,
      TLN_GetTilemapTile, raise_exception, hr, hc, Flags.FLIPX]

/-- C5 witness: the round trip on cell (2, 3) of the concrete 10×10
tilemap. -/
theorem C5_tile_roundtrip_witness :
    (Tilemap.get_tile
      (Tilemap.set_tile baseState 0 2 3
        (some { index := 5, flags := Flags.FLIPX })).1 0 2 3).2.1 =
      { index := 5, flags := Flags.FLIPX } :=
  (C5_tile_roundtrip baseState 0 2 3 (by decide) (by decide)).2.2

/-- C9 (confirmed): `Sprite.set_picture` with a string name whose native
lookup returns `-1`, or with an argument that is neither `int` nor `str`,
returns normally — no exception, no native setter call, the full native
state (hence the sprite's current picture index) unchanged. -/
theorem C9_set_picture_silent (st : NativeState) (sp : Sprite) (name : String)
    (hfind : TLN_FindSpritesetSprite st sp.spriteset name = -1) :
    Sprite.set_picture st sp (.pstr name) = (st, none) ∧
    (Sprite.set_picture st sp (.pstr name)).1.spritePicture sp.index =
      st.spritePicture sp.index ∧
    Sprite.set_picture st sp .pother = (st, none) := by
  refine ⟨?_, ?_, rfl⟩ <;> simp [Sprite.set_picture, hfind]

/-- C9 witness: a concrete unfound name on sprite 0 of the concrete
context. -/
theorem C9_set_picture_silent_witness :
    Sprite.set_picture baseState { index := 0, spriteset := some 0 }
      (.pstr "missing") = (baseState, none) :=
  (C9_set_picture_silent baseState { index := 0, spriteset := some 0 }
    "missing" (by decide)).1

/-- The scanline loop from `line` yields the raster events of
`line, line + 1, …, height - 1` in order. -/
theorem renderScanlines_eq_range' (height : Nat) :
    ∀ n line, height - line = n →
      renderScanlines height line = (List.range' line n).map FrameEvent.raster := by
  intro n
  induction n with
  | zero =>
      intro line h0
      rw [renderScanlines]
      have hl : ¬ line < height := by omega
      simp [hl]
  | succ k ih =>
      intro line hk
      rw [renderScanlines]
      have hl : line < height := by omega
      rw [dif_pos hl, ih (line + 1) (by omega), List.range'_succ]
      simp

/-- The scanline loop from 0 yields the raster events of `0..height-1`. -/
theorem renderScanlines_eq (height : Nat) :
    renderScanlines height 0 = (List.range height).map FrameEvent.raster := by
  rw [renderScanlines_eq_range' height height 0 rfl, List.range_eq_range']

/-- C6 (confirmed): in the callback trace of a rendered frame, the raster
callback runs exactly once per scanline `0..height-1`, in strictly
ascending order (the raster lines are exactly `range height`), and the
frame callback runs exactly once, as the last event after the last
scanline. -/
theorem C6_frame_trace (height frame : Nat) :
    rasterLines (Engine.update_frame height frame) = List.range height ∧
    (∀ i, i < height →
      (Engine.update_frame height frame).count (FrameEvent.raster i) = 1) ∧
    List.Pairwise (· < ·) (rasterLines (Engine.update_frame height frame)) ∧
    (rasterLines (Engine.update_frame height frame)).length = height ∧
    (Engine.update_frame height frame).count (FrameEvent.frameCb frame) = 1 ∧
    (Engine.update_frame height frame).getLast? =
      some (FrameEvent.frameCb frame) := by
  have htrace : Engine.update_frame height frame =
      (List.range height).map FrameEvent.raster ++ [FrameEvent.frameCb frame] := by
    simp [Engine.update_frame, TLN_UpdateFrame, renderScanlines_eq]
  have hinj : Function.Injective FrameEvent.raster := by
    intro a b h
    cases h
    rfl
  have hlines : rasterLines (Engine.update_frame height frame) = List.range height := by
    rw [htrace]
    simp only [rasterLines, List.filterMap_append, List.filterMap_map]
    have h1 : List.filterMap (rasterLine? ∘ FrameEvent.raster)
        (List.range height) = List.range height :=
      List.filterMap_some (List.range height)
    rw [h1]
    simp [rasterLine?]
  refine ⟨hlines, ?_, ?_, ?_, ?_, ?_⟩
  · intro i hi
    rw [htrace, List.count_append,
      List.count_map_of_injective _ FrameEvent.raster hinj i]
    rw [List.count_eq_one_of_mem (List.nodup_range height)
      (List.mem_range.mpr hi)]
    simp
  · rw [hlines]
    exact List.pairwise_lt_range height
  · rw [hlines]
    exact List.length_range height
  · rw [htrace, List.count_append]
    have h0 : ((List.range height).map FrameEvent.raster).count
        (FrameEvent.frameCb frame) = 0 := by
      rw [List.count_eq_zero]
      intro hmem
      obtain ⟨j, _, hj⟩ := List.mem_map.mp hmem
      cases hj
    rw [h0]
    simp
  · rw [htrace]
    exact List.getLast?_concat _

/-- C6 witness: the trace of a 3-line frame. -/
theorem C6_frame_trace_witness :
    (Engine.update_frame 3 7).count (FrameEvent.raster 1) = 1 ∧
    rasterLines (Engine.update_frame 3 7) = List.range 3 ∧
    (Engine.update_frame 3 7).getLast? = some (FrameEvent.frameCb 7) :=
  ⟨(C6_frame_trace 3 7).2.1 1 (by decide),
   (C6_frame_trace 3 7).1,
   (C6_frame_trace 3 7).2.2.2.2.2⟩

/-- One unfolding step of the z-order walk. -/
theorem paintChain_succ (nxt : Nat → Option Nat) (fuel i : Nat) :
    paintChain nxt (fuel + 1) i =
      i :: (match nxt i with
            | none => []
            | some j => paintChain nxt fuel j) := rfl

/-- A three-element chain `a → b → c → ∅` is walked as `[a, b, c]`
whenever at least three units of fuel are available. -/
theorem paintChain_three (nxt : Nat → Option Nat) (k a b c : Nat)
    (h1 : nxt a = some b) (h2 : nxt b = some c) (h3 : nxt c = none) :
    paintChain nxt (k + 3) a = [a, b, c] := by
  have s1 := paintChain_succ nxt (k + 2) a
  rw [h1] at s1
  have s2 := paintChain_succ nxt (k + 1) b
  rw [h2] at s2
  have s3 := paintChain_succ nxt k c
  rw [h3] at s3
  simp only [] at s1 s2 s3
  rw [show k + 3 = k + 2 + 1 from rfl, s1,
    show k + 2 = k + 1 + 1 from rfl, s2, s3]

/-- C7 (confirmed): with all z-order links initially clear, after
`A.set_first()`, `A.set_next(B)`, `B.set_next(C)` on three distinct valid
sprite indices, all three calls return normally and the composite paint
order of the next rendered frame is exactly `[A, B, C]` (A painted
first/bottom-most), whatever the numeric relation of the indices. -/
theorem C7_sprite_zorder (st : NativeState) (a b c : Nat)
    (ha : a < st.numSprites) (hb : b < st.numSprites) (hc : c < st.numSprites)
    (hab : a ≠ b) (hac : a ≠ c) (hbc : b ≠ c)
    (hnext : ∀ i, st.nextSprite i = none) :
    (Sprite.set_first st (Sprite.init a)).2 = none ∧
    (Sprite.set_next (Sprite.set_first st (Sprite.init a)).1
      (Sprite.init a) b).2 = none ∧
    (Sprite.set_next
      (Sprite.set_next (Sprite.set_first st (Sprite.init a)).1
        (Sprite.init a) b).1 (Sprite.init b) c).2 = none ∧
    paintOrder
      (Sprite.set_next
        (Sprite.set_next (Sprite.set_first st (Sprite.init a)).1
          (Sprite.init a) b).1 (Sprite.init b) c).1 = [a, b, c] := by
  simp only [Sprite.set_first, Sprite.set_next, TLN_SetFirstSprite,
    TLN_SetNextSprite, Sprite.init, raise_exception, ha, hb, hc, and_self,
    if_true, ite_true, eq_self_iff_true]
  refine ⟨trivial, trivial, trivial, ?_⟩
  simp only [paintOrder]
  obtain ⟨k, hk⟩ : ∃ k, st.numSprites = k + 3 := ⟨st.numSprites - 3, by omega⟩
  rw [hk]
  refine paintChain_three _ k a b c ?_ ?_ ?_
  · simp [hab]
  · simp
  · simp [Ne.symm hbc, Ne.symm hac, hnext c]

/-- C7 witness: sprites 2, 0, 1 of the concrete 4-sprite context paint in
the order [2, 0, 1]. -/
theorem C7_sprite_zorder_witness :
    paintOrder
      (Sprite.set_next
        (Sprite.set_next (Sprite.set_first baseState (Sprite.init 2)).1
          (Sprite.init 2) 0).1 (Sprite.init 0) 1).1 = [2, 0, 1] :=
  (C7_sprite_zorder baseState 2 0 1 (by decide) (by decide) (by decide)
    (by decide) (by decide) (by decide) (fun _ => rfl)).2.2.2

/-- C8 (confirmed): a successful `Engine.create` (non-`None` native
handle) yields an `Engine` whose `layers`, `sprites` and `animations`
tuples have exactly the requested lengths and whose `i`-th element carries
`index = i`. -/
theorem C8_engine_create (handle : Option Nat) (version : Nat)
    (width height num_layers num_sprites num_animations : Nat) (e : Engine)
    (hcreate : Engine.create handle version width height num_layers
      num_sprites num_animations = some e) :
    e.layers.length = num_layers ∧
    e.sprites.length = num_sprites ∧
    e.animations.length = num_animations ∧
    (∀ i (hi : i < e.layers.length), (e.layers.get ⟨i, hi⟩).index = i) ∧
    (∀ i (hi : i < e.sprites.length), (e.sprites.get ⟨i, hi⟩).index = i) ∧
    (∀ i (hi : i < e.animations.length),
      (e.animations.get ⟨i, hi⟩).index = i) := by
  cases handle with
  | none => simp [Engine.create] at hcreate
  | some h =>
      simp only [Engine.create, Option.some.injEq] at hcreate
      subst hcreate
      refine ⟨by simp [Engine.engineInit], by simp [Engine.engineInit],
        by simp [Engine.engineInit], ?_, ?_, ?_⟩ <;>
      · intro i hi
        simp [Engine.engineInit, Layer.init, Sprite.init, Animation.init]

/-- C8 witness: a created engine with 2 layers, 2 sprites, 1 animation;
layer 1 carries index 1. -/
theorem C8_engine_create_witness :
    (Engine.engineInit 2110 2 2 1).layers.length = 2 ∧
    ((Engine.engineInit 2110 2 2 1).layers.get ⟨1, by decide⟩).index = 1 :=
  ⟨(C8_engine_create (some 1) 2110 320 240 2 2 1
      (Engine.engineInit 2110 2 2 1) rfl).1,
   (C8_engine_create (some 1) 2110 320 240 2 2 1
      (Engine.engineInit 2110 2 2 1) rfl).2.2.2.1 1 (by decide)⟩

/-- Parsing one lowercase hexadecimal digit returns its value. -/
theorem hexVal_hexDigit : ∀ n : Fin 16, hexVal (hexDigit n.val) = some n.val := by
  decide

/-- Parsing the two-digit lowercase hexadecimal encoding of `n < 256`
with Python `int(_, 16)` returns `n`. -/
theorem pyIntHex_toHex2 (n : Nat) (h : n < 256) : pyIntHex (toHex2 n) = some n := by
  have h1 : hexVal (hexDigit (n / 16)) = some (n / 16) :=
    hexVal_hexDigit ⟨n / 16, by omega⟩
  have h2 : hexVal (hexDigit (n % 16)) = some (n % 16) :=
    hexVal_hexDigit ⟨n % 16, by omega⟩
  simp [pyIntHex, toHex2, h1, h2, Nat.div_add_mod]

/-- C10 (confirmed): for all r, g, b in 0..255, `Color.fromstring` applied
to `'#'` followed by the two-digit lowercase hexadecimal encodings of r, g
and b returns exactly `Color(r, g, b)`. -/
theorem C10_fromstring_roundtrip (r g b : Nat)
    (hr : r < 256) (hg : g < 256) (hb : b < 256) :
    Color.fromstring ('#' :: (toHex2 r ++ toHex2 g ++ toHex2 b)) =
      some { r := r, g := g, b := b } := by
  have d1 : (('#' :: (toHex2 r ++ toHex2 g ++ toHex2 b)).drop 1).take 2 =
      toHex2 r := by
    simp [toHex2]
  have d3 : (('#' :: (toHex2 r ++ toHex2 g ++ toHex2 b)).drop 3).take 2 =
      toHex2 g := by
    simp [toHex2]
  have d5 : (('#' :: (toHex2 r ++ toHex2 g ++ toHex2 b)).drop 5).take 2 =
      toHex2 b := by
    simp [toHex2]
  rw [Color.fromstring, d1, d3, d5, pyIntHex_toHex2 r hr,
    pyIntHex_toHex2 g hg, pyIntHex_toHex2 b hb]

/-- C10 witness: `#20a1ff` parses back to (32, 161, 255). -/
theorem C10_fromstring_roundtrip_witness :
    Color.fromstring ('#' :: (toHex2 32 ++ toHex2 161 ++ toHex2 255)) =
      some { r := 32, g := 161, b := 255 } :=
  C10_fromstring_roundtrip 32 161 255 (by decide) (by decide) (by decide)
